import Mathlib

set_option autoImplicit false
set_option linter.unusedVariables false

/-!
Verification of the state-resolution and widget-composition engine: a shallow
embedding of the widget invocation logic (template/widget_component.rs), the
browser-side widget state lookup (reactor/widget_state.rs), the reactive state
contracts (state/rx_state.rs, state/rx_collections/rx_hash_map.rs) and the
engine-side head/header state guards (template/core/state_setters.rs), with
theorems about their behavior.
-/

/-- Model of a serde_json JSON value, the untyped representation every state
crosses serialization boundaries as. -/
inductive Json where
  | null : Json
  | bool (b : Bool) : Json
  | num (n : Int) : Json
  | str (s : String) : Json
  | arr (elems : List Json) : Json
  | obj (fields : List (String × Json)) : Json

/-- Model of serialized JSON text on the wire. The external serde_json
library is modelled as the identity codec on JSON values: a wire string is
either the serialization of a JSON value, or text that is not valid JSON
(the text constructor), so that parse failure stays representable. The Rust
literal string null is the serialization of the null value, Wire.json
Json.null here. -/
inductive Wire where
  | json (j : Json) : Wire
  | text (s : String) : Wire

/-- The client invariant violations the embedded code raises
(errors.rs ClientInvariantError); deserialization failures carry their source
error, modelled as a message. -/
inductive ClientInvariantError where
  | NoState : ClientInvariantError
  | InvalidState (source : String) : ClientInvariantError
  | InvalidWidgetPssEntry : ClientInvariantError
deriving DecidableEq

/-- Client-side errors (errors.rs ClientError), restricted to the variants the
embedded code constructs. -/
inductive ClientError where
  | InvariantError (e : ClientInvariantError) : ClientError
  | ServerError (status : Nat) (message : String) : ClientError
deriving DecidableEq

/-- Immutable / mutable store errors (errors.rs StoreError). -/
inductive StoreError where
  | NotFound (name : String) : StoreError
  | ReadFailed (name : String) (source : String) : StoreError
  | WriteFailed (name : String) (source : String) : StoreError
deriving DecidableEq

/-- Whether a store error is the not-found case, which build-mode widget
resolution treats as implicit empty state. -/
def StoreError.is_not_found : StoreError → Bool
  | .NotFound _ => true
  | _ => false

/-- Server-side errors (errors.rs ServerError), restricted to the variants the
embedded code constructs; the Rust From conversions are the evident
constructor injections. -/
inductive ServerError where
  | ClientError (e : ClientError) : ServerError
  | InvalidPageState (source : String) : ServerError
  | StoreError (e : StoreError) : ServerError
  | RenderFnFailed (fn_name : String) (template_name : String) (cause : String) : ServerError
deriving DecidableEq

/-- The wire form of a server error for one widget (error_views.rs
ServerErrorData). -/
structure ServerErrorData where
  status : Nat
  msg : String
deriving DecidableEq

/-- Modelled from the spec: the untyped serializable state container
(TemplateState, whose defining module is not among the given source files).
It holds a JSON value with a lazily attached type. -/
structure TemplateState where
  state : Json

/-- Modelled from the spec: is_empty is a first-class precondition check; the
empty state is the null JSON value (the serialization of the literal null). -/
def TemplateState.is_empty (ts : TemplateState) : Bool :=
  match ts.state with
  | .null => true
  | _ => false

/-- The empty template state. -/
def TemplateState.empty : TemplateState := ⟨Json.null⟩

/-- Modelled from the spec: from_str is the wire parse; failure maps to a
serialization error, reported here as the offending text. -/
def TemplateState.from_str : Wire → Except String TemplateState
  | .json j => .ok ⟨j⟩
  | .text s => .error s

/-- Modelled from the spec: the serde (Serialize + DeserializeOwned) codec a
reactive-contract state type carries. The serde derive contract, that
deserialization inverts serialization, is the round_trip field; the concrete
instances below prove it. -/
class Serde (α : Type) where
  toJson : α → Json
  fromJson : Json → Except String α
  round_trip : ∀ (a : α), fromJson (toJson a) = .ok a

/-- Modelled from the spec: into_concrete deserializes the untyped state into
the concrete type, or fails with the deserialization error. -/
def TemplateState.into_concrete {α : Type} [Serde α] (ts : TemplateState) :
    Except String α :=
  Serde.fromJson ts.state

/-- Model of a sycamore reactive cell (external library): a Signal is
modelled by its current value. -/
structure Signal (α : Type) where
  val : α

/-- Model of sycamore create_signal. -/
def create_signal {α : Type} (v : α) : Signal α := ⟨v⟩

/-- Model of sycamore Signal get_clone: read the current value. -/
def Signal.get_clone {α : Type} (s : Signal α) : α := s.val

/-- The wrapper that lets an unreactive state type interface with the
reactive state platform (rx_state.rs UnreactiveStateWrapper). -/
structure UnreactiveStateWrapper (T : Type) where
  val : T

/-- The blanket MakeRx impl for marked unreactive types (rx_state.rs lines
142 to 151): the reactive projection is the wrapper, the identity on the
underlying value. -/
def UnreactiveState.make_rx {T : Type} (v : T) : UnreactiveStateWrapper T := ⟨v⟩

/-- MakeUnrx for the wrapper (rx_state.rs lines 153 to 163): unwrap. -/
def UnreactiveStateWrapper.make_unrx {T : Type} (w : UnreactiveStateWrapper T) : T :=
  w.val

/-- Freeze for the wrapper (rx_state.rs lines 165 to 172): serialize the
underlying value. -/
def UnreactiveStateWrapper.freeze {T : Type} [Serde T] (w : UnreactiveStateWrapper T) :
    Wire :=
  .json (Serde.toJson w.val)

/-- The unreactive reactive-collection map (rx_hash_map.rs RxHashMap). The
Rust HashMap is modelled as its list of key/value entries. -/
structure RxHashMap (K V : Type) where
  entries : List (K × V)

/-- The reactive version of RxHashMap (rx_hash_map.rs RxHashMapRx): a signal
holding a map whose values are themselves signals. -/
structure RxHashMapRx (K V : Type) where
  sig : Signal (List (K × Signal V))

/-- MakeRx for RxHashMap (rx_hash_map.rs lines 29 to 44): wrap every value in
a signal and the whole map in a signal. -/
def RxHashMap.make_rx {K V : Type} (m : RxHashMap K V) : RxHashMapRx K V :=
  ⟨create_signal (m.entries.map (fun kv => (kv.1, create_signal kv.2)))⟩

/-- MakeUnrx for RxHashMapRx (rx_hash_map.rs lines 46 to 60): read the outer
signal and every inner signal back. -/
def RxHashMapRx.make_unrx {K V : Type} (r : RxHashMapRx K V) : RxHashMap K V :=
  ⟨(r.sig.get_clone).map (fun kv => (kv.1, kv.2.get_clone))⟩

/-- Modelled from the spec: serde map keys serialize to strings; a key type
usable in a serialized map carries the string codec with its inversion law. -/
class SerdeKey (α : Type) where
  keyToString : α → String
  keyFromString : String → Except String α
  key_round_trip : ∀ (a : α), keyFromString (keyToString a) = .ok a

/-- Decode the fields of a JSON object into map entries, failing on the first
bad key or value (the deserialization half of the serde codec of a map). -/
def decodeEntries {K V : Type} [SerdeKey K] [Serde V] :
    List (String × Json) → Except String (List (K × V))
  | [] => .ok []
  | (ks, jv) :: rest =>
    match SerdeKey.keyFromString (α := K) ks with
    | .error e => .error e
    | .ok k =>
      match (Serde.fromJson jv : Except String V) with
      | .error e => .error e
      | .ok v =>
        match decodeEntries (K := K) (V := V) rest with
        | .error e => .error e
        | .ok tail => .ok ((k, v) :: tail)

instance instSerdeRxHashMap {K V : Type} [SerdeKey K] [Serde V] :
    Serde (RxHashMap K V) where
  toJson m :=
    Json.obj (m.entries.map (fun kv => (SerdeKey.keyToString kv.1, Serde.toJson kv.2)))
  fromJson j :=
    match j with
    | .obj fields =>
      match decodeEntries (K := K) (V := V) fields with
      | .ok l => .ok ⟨l⟩
      | .error e => .error e
    | _ => .error "expected a JSON object"
  round_trip m := by
    cases m with
    | mk entries =>
      have h : ∀ (xs : List (K × V)),
          decodeEntries (K := K) (V := V)
            (xs.map (fun kv => (SerdeKey.keyToString kv.1, Serde.toJson kv.2))) = .ok xs := by
        intro xs
        induction xs with
        | nil => rfl
        | cons kv rest ih =>
          simp [decodeEntries, SerdeKey.key_round_trip, Serde.round_trip, ih]
      simp [h entries]

/-- Freeze for RxHashMapRx (rx_hash_map.rs lines 99 to 109): collapse back to
the unreactive map, then serialize it. -/
def RxHashMapRx.freeze {K V : Type} [SerdeKey K] [Serde V] (r : RxHashMapRx K V) :
    Wire :=
  .json (Serde.toJson (RxHashMapRx.make_unrx ⟨r.sig⟩))

/-- Serde instance for Bool (a stand-in concrete state type, showing the
codec classes are inhabited). -/
instance instSerdeBool : Serde Bool where
  toJson b := Json.bool b
  fromJson j :=
    match j with
    | .bool b => .ok b
    | _ => .error "expected a JSON boolean"
  round_trip b := by cases b <;> rfl

/-- SerdeKey instance for String keys: the identity codec. -/
instance instSerdeKeyString : SerdeKey String where
  keyToString s := s
  keyFromString s := .ok s
  key_round_trip s := rfl

/-- Serde instance for ServerErrorData (error_views.rs derives serde on it):
a two-field JSON object. -/
instance instSerdeServerErrorData : Serde ServerErrorData where
  toJson ed := Json.obj [("status", Json.num (Int.ofNat ed.status)), ("msg", Json.str ed.msg)]
  fromJson j :=
    match j with
    | .obj [(k1, .num n), (k2, .str s)] =>
      if k1 = "status" ∧ k2 = "msg" then .ok ⟨n.toNat, s⟩
      else .error "expected a server error object"
    | _ => .error "expected a server error object"
  round_trip ed := by
    cases ed with
    | mk status msg => simp

/-- Serde instance for a widget state transmission result (serde serializes a
Rust Result as a one-field object tagged Ok or Err); used by the preload
branch of the browser-side lookup, which deserializes
Result of state or ServerErrorData. -/
instance instSerdeExceptRes {S : Type} [Serde S] : Serde (Except ServerErrorData S) where
  toJson r :=
    match r with
    | .ok s => Json.obj [("Ok", Serde.toJson s)]
    | .error e => Json.obj [("Err", Serde.toJson e)]
  fromJson j :=
    match j with
    | .obj [(tag, js)] =>
      if tag = "Ok" then
        match (Serde.fromJson js : Except String S) with
        | .ok s => .ok (.ok s)
        | .error e => .error e
      else if tag = "Err" then
        match (Serde.fromJson js : Except String ServerErrorData) with
        | .ok ed => .ok (.error ed)
        | .error e => .error e
      else .error "unknown result tag"
    | _ => .error "expected a result object"
  round_trip r := by
    cases r with
    | ok s => simp [Serde.round_trip]
    | error e => simp [Serde.round_trip]

/-- Modelled from the spec: pairing a locale-free path with a locale gives
the canonical cache key (path.rs is not among the given source files); the
dummy locale xx-XX adds no prefix, matching the inverse stripping in
reactor/widget_state.rs lines 76 to 82. -/
def PathMaybeWithLocale.new (path locale : String) : String :=
  if locale = "xx-XX" then path else locale ++ "/" ++ path

/-- Upper-case hexadecimal digit of a value below 16. -/
def hexDigit (n : Nat) : Char :=
  if n < 10 then Char.ofNat (48 + n) else Char.ofNat (55 + n)

/-- Whether a byte is kept verbatim by the external urlencoding crate:
ASCII alphanumerics and the unreserved marks dash, dot, underscore, tilde. -/
def byteUnreserved (b : UInt8) : Bool :=
  (65 ≤ b.toNat && b.toNat ≤ 90) || (97 ≤ b.toNat && b.toNat ≤ 122) ||
    (48 ≤ b.toNat && b.toNat ≤ 57) ||
    b.toNat == 45 || b.toNat == 46 || b.toNat == 95 || b.toNat == 126

/-- Percent-encoding of one byte, as the external urlencoding crate does. -/
def encodeByte (b : UInt8) : List Char :=
  if byteUnreserved b then [Char.ofNat b.toNat]
  else ['%', hexDigit (b.toNat / 16), hexDigit (b.toNat % 16)]

/-- Model of the external urlencoding crate encode function: percent-encode
every byte of the UTF-8 encoding except the unreserved ones. -/
def urlencode (s : String) : String :=
  String.mk (List.flatten (s.toUTF8.toList.map encodeByte))

/-- A rendered view. View.new is the empty view a failed or deferred widget
invocation yields; the other constructors stand for nonempty view trees. -/
inductive View where
  | new : View
  | fragment (id : Nat) : View
deriving DecidableEq

/-- The shared per-page build render status (reactor RenderStatus):
Ok, Cancelled, or a server error. -/
inductive RenderStatus where
  | Ok : RenderStatus
  | Cancelled : RenderStatus
  | Err (e : ServerError) : RenderStatus
deriving DecidableEq

/-- The Build-mode render context (reactor RenderMode::Build): the shared
render status, the widget render config (path to owning capsule name), the
immutable store (a map from keys to read outcomes), the widget state
accumulator (localized path to capsule name and raw state, in insertion
order) and the possibly-incremental path accumulator. -/
structure BuildCtx where
  render_status : RenderStatus
  widget_render_cfg : String → Option String
  immutable_store : String → Except StoreError Wire
  widget_states : List (String × String × Json)
  possibly_incremental_paths : List String

/-- The Request-mode render context (reactor RenderMode::Request): the widget
states resolved by prior passes (localized path to state or server error
data), the error view handle (modelled by its handle_widget function) and
the unresolved widget accumulator. -/
structure RequestCtx where
  widget_states : String → Option (Except ServerErrorData TemplateState)
  handle_widget : ClientError → View
  unresolved_widget_accumulator : List String

/-- The render mode state machine (reactor RenderMode): Build and Request
carry their mode-specific context; Head, Error and Headers carry none. -/
inductive RenderMode where
  | Build (ctx : BuildCtx) : RenderMode
  | Request (ctx : RequestCtx) : RenderMode
  | Head : RenderMode
  | Error : RenderMode
  | Headers : RenderMode

/-- A Rust panic, the fail-fast outcome of invoking a widget in a mode with
no widget resolution capability. -/
structure Panic where
  msg : String
deriving DecidableEq

/-- A capsule as engine_widget consumes it: the build-safety flags read from
the template inner (uses_request_state, revalidates) and the server-side
widget render function, which is handed the localized path, the typed-state
input and the props. -/
structure Capsule (P : Type) where
  uses_request_state : Bool
  revalidates : Bool
  render_widget_for_template_server : String → TemplateState → P → Except ClientError View

/-- The engine-side widget invocation (widget_component.rs
Capsule::engine_widget, lines 189 to 359), embedded as a function from the
current render mode to the produced view and the updated render mode, or a
panic. The reactor locale (from the translator) and the locale-free widget
path are arguments; mutation of the shared mode context is explicit state
passing. -/
def Capsule.engine_widget {P : Type} (c : Capsule P) (locale path : String) (props : P)
    (mode : RenderMode) : Except Panic (View × RenderMode) :=
  match mode with
  | .Build ctx =>
    match ctx.render_status with
    | .Ok =>
      match ctx.widget_render_cfg path with
      | some capsule_name =>
        if c.uses_request_state || c.revalidates then
          .ok (View.new, .Build { ctx with render_status := .Cancelled })
        else
          let path_encoded := locale ++ "-" ++ urlencode path
          let read : Except StoreError Wire :=
            match ctx.immutable_store ("static/" ++ path_encoded ++ ".json") with
            | .ok w => .ok w
            | .error (.NotFound n) => .ok (Wire.json Json.null)
            | .error e => .error e
          match read with
          | .error e =>
            .ok (View.new, .Build { ctx with render_status := .Err (.StoreError e) })
          | .ok w =>
            match TemplateState.from_str w with
            | .error e =>
              .ok (View.new, .Build { ctx with render_status := .Err (.InvalidPageState e) })
            | .ok state =>
              let localized_path := PathMaybeWithLocale.new path locale
              let ctx2 := { ctx with
                widget_states := ctx.widget_states ++ [(localized_path, capsule_name, state.state)] }
              match c.render_widget_for_template_server localized_path state props with
              | .ok view => .ok (view, .Build ctx2)
              | .error e =>
                .ok (View.new, .Build { ctx2 with render_status := .Err (.ClientError e) })
      | none =>
        .ok (View.new, .Build
          { ctx with possibly_incremental_paths := ctx.possibly_incremental_paths ++ [path] })
    | _ => .ok (View.new, .Build ctx)
  | .Request ctx =>
    let full_path := PathMaybeWithLocale.new path locale
    match ctx.widget_states full_path with
    | some (.ok state) =>
      match c.render_widget_for_template_server full_path state props with
      | .ok view => .ok (view, .Request ctx)
      | .error e => .ok (ctx.handle_widget e, .Request ctx)
    | some (.error err_data) =>
      .ok (ctx.handle_widget (.ServerError err_data.status err_data.msg), .Request ctx)
    | none =>
      .ok (View.new, .Request
        { ctx with unresolved_widget_accumulator := ctx.unresolved_widget_accumulator ++ [path] })
  | .Head => .error ⟨"widgets cannot be used in heads"⟩
  | .Error => .error ⟨"widgets cannot be used in error views"⟩
  | .Headers => .error ⟨"widgets cannot be used in headers"⟩

/-- The Request-mode case analysis as the claim states it: a widget
invocation is decided by lookup of the localized path in widget_states. An
Ok entry is rendered directly with that state (a render error becomes the
widget error view); an Err entry renders a widget-level error view through
the error view handler, leaving the context unchanged; an absent entry
appends the path to the unresolved widget accumulator and yields an empty
view. -/
def requestInvocationSpec {P : Type} (c : Capsule P) (locale path : String) (props : P)
    (ctx : RequestCtx) : View × RenderMode :=
  let full_path := PathMaybeWithLocale.new path locale
  match ctx.widget_states full_path with
  | some (.ok state) =>
    match c.render_widget_for_template_server full_path state props with
    | .ok view => (view, .Request ctx)
    | .error e => (ctx.handle_widget e, .Request ctx)
  | some (.error err_data) =>
    (ctx.handle_widget (.ServerError err_data.status err_data.msg), .Request ctx)
  | none =>
    (View.new, .Request
      { ctx with unresolved_widget_accumulator := ctx.unresolved_widget_accumulator ++ [path] })

/-- The successful-read continuation of the Build-mode hit case, as the claim
states it: the triple of localized path, capsule name and raw state is
recorded in the widget_states accumulator before rendering (so the record
stays even when rendering fails), then the widget renders with that state; a
render error empties the view and stores the error in the render status. -/
def buildRecordAndRender {P : Type} (c : Capsule P) (locale path : String) (props : P)
    (capsule_name : String) (ctx : BuildCtx) (j : Json) : View × RenderMode :=
  let localized_path := PathMaybeWithLocale.new path locale
  let recorded := { ctx with
    widget_states := ctx.widget_states ++ [(localized_path, capsule_name, j)] }
  match c.render_widget_for_template_server localized_path ⟨j⟩ props with
  | .ok view => (view, .Build recorded)
  | .error e => (View.new, .Build { recorded with render_status := .Err (.ClientError e) })

/-- The Build-mode render-config-hit behavior as the claim states it: the
immutable store is read at exactly the key
static/, the locale, a dash, the urlencoded path, .json; a NotFound read is
implicit empty state, the state parsed from the serialization of null; any
other store error sets the render status to that store error and yields an
empty view; unparseable content sets the render status to an invalid page
state error and yields an empty view; a successful read records and
renders. -/
def buildHitSpec {P : Type} (c : Capsule P) (locale path : String) (props : P)
    (capsule_name : String) (ctx : BuildCtx) : View × RenderMode :=
  match ctx.immutable_store ("static/" ++ (locale ++ "-" ++ urlencode path) ++ ".json") with
  | .error (.NotFound n) => buildRecordAndRender c locale path props capsule_name ctx Json.null
  | .error e => (View.new, .Build { ctx with render_status := .Err (.StoreError e) })
  | .ok (.text s) => (View.new, .Build { ctx with render_status := .Err (.InvalidPageState s) })
  | .ok (.json j) => buildRecordAndRender c locale path props capsule_name ctx j

/-- The classification the page state store gives a path (PssContains). -/
inductive PssContains where
  | None : PssContains
  | Preloaded : PssContains
  | Head : PssContains
  | HeadNoState : PssContains
  | State : PssContains
  | All : PssContains
deriving DecidableEq

/-- Modelled from the spec: the collaborators of get_widget_state_no_fetch
whose defining code is not among the given source files, passed in as
oracles: the reactive projection of the state type, the outcome of
get_held_state (the active and frozen state lookup), the classification the
state store gives the path, the state of the preloaded page data
get_preloaded yields, and the outcome of add_state. The add_head side
effect records nothing the lookup result depends on and is not modelled. -/
structure GwsEnv (S Rx : Type) where
  make_rx : S → Rx
  held_state : Except ClientError (Option Rx)
  contains : PssContains
  preloaded_state : Json
  add_state : Except ClientError Unit

/-- The widget state lookup without fetching (reactor/widget_state.rs
Reactor::get_widget_state_no_fetch, lines 253 to 328): held state wins;
otherwise on the browser side the store classification decides between the
preload extraction, a bail-out to fetching (Ok none), the widget invariant
violation for head entries, and the unreachable populated cases; on the
engine side the passed server state is deserialized, an empty one being an
invariant violation. Rust unreachable is a panic. -/
def Reactor.get_widget_state_no_fetch {S Rx : Type} [Serde S] (env : GwsEnv S Rx)
    (is_client : Bool) (url : String) (server_state : TemplateState) :
    Except Panic (Except ClientError (Option Rx)) :=
  match env.held_state with
  | .error e => .ok (.error e)
  | .ok (some held) => .ok (.ok (some held))
  | .ok none =>
    if is_client then
      match env.contains with
      | .Preloaded =>
        match (TemplateState.into_concrete (α := Except ServerErrorData S) ⟨env.preloaded_state⟩) with
        | .error err => .ok (.error (.InvariantError (.InvalidState err)))
        | .ok (.ok unrx) =>
          let rx := env.make_rx unrx
          match env.add_state with
          | .ok _ => .ok (.ok (some rx))
          | .error e => .ok (.error e)
        | .ok (.error ed) => .ok (.error (.ServerError ed.status ed.msg))
      | .None => .ok (.ok none)
      | .Head => .ok (.error (.InvariantError .InvalidWidgetPssEntry))
      | .HeadNoState => .ok (.error (.InvariantError .InvalidWidgetPssEntry))
      | .All => .error ⟨"unreachable: a populated entry is caught by get_held_state"⟩
      | .State => .error ⟨"unreachable: a populated entry is caught by get_held_state"⟩
    else if server_state.is_empty then
      .ok (.error (.InvariantError .NoState))
    else
      match (TemplateState.into_concrete (α := S) server_state) with
      | .error err => .ok (.error (.InvariantError (.InvalidState err)))
      | .ok unrx =>
        let rx := env.make_rx unrx
        match env.add_state with
        | .ok _ => .ok (.ok (some rx))
        | .error e => .ok (.error e)

/-- Modelled from the spec: the result of a user state-consuming generator
function (fn_types.rs GeneratorResult, not among the given source files): a
value or a blamed cause. -/
abbrev GeneratorResult (α : Type) : Type := Except String α

/-- Modelled from the spec: into_server_result blames a failed generator
result on the named function of the named template. -/
def into_server_result {α : Type} (r : GeneratorResult α) (fn_name template_name : String) :
    Except ServerError α :=
  match r with
  | .ok v => .ok v
  | .error cause => .error (.RenderFnFailed fn_name template_name cause)

/-- The engine-side head closure a template with a stateful head gets
(state_setters.rs TemplateInner::head_with_state, lines 106 to 136): an
empty state is a NoState invariant violation before the user function is
considered; a state that fails typed deserialization is an InvalidState
invariant violation carrying the source error; otherwise the user function
runs and its result is blamed on head. -/
def TemplateInner.head_with_state {S V : Type} [Serde S] (val : S → GeneratorResult V)
    (template_name : String) : TemplateState → Except ServerError V :=
  fun template_state =>
    if template_state.is_empty then
      .error (.ClientError (.InvariantError .NoState))
    else
      match (TemplateState.into_concrete (α := S) template_state) with
      | .ok state => into_server_result (val state) "head" template_name
      | .error err => .error (.ClientError (.InvariantError (.InvalidState err)))

/-- The engine-side header closure (state_setters.rs
TemplateInner::set_headers_with_state, lines 152 to 187): identical guards,
with the failure blamed on set_headers. -/
def TemplateInner.set_headers_with_state {S V : Type} [Serde S] (val : S → GeneratorResult V)
    (template_name : String) : TemplateState → Except ServerError V :=
  fun template_state =>
    if template_state.is_empty then
      .error (.ClientError (.InvariantError .NoState))
    else
      match (TemplateState.into_concrete (α := S) template_state) with
      | .ok state => into_server_result (val state) "set_headers" template_name
      | .error err => .error (.ClientError (.InvariantError (.InvalidState err)))

/-- A concrete capsule that is safe for build-time resolution. -/
def capsuleA : Capsule Unit :=
  { uses_request_state := false
    revalidates := false
    render_widget_for_template_server := fun _ _ _ => .ok (View.fragment 1) }

/-- A concrete capsule that uses request state. -/
def capsuleB : Capsule Unit :=
  { uses_request_state := true
    revalidates := false
    render_widget_for_template_server := fun _ _ _ => .ok (View.fragment 2) }

/-- A concrete healthy Build-mode context. -/
def buildCtxA : BuildCtx :=
  { render_status := .Ok
    widget_render_cfg := fun _ => some "capsule"
    immutable_store := fun _ => .ok (.json (Json.num 5))
    widget_states := []
    possibly_incremental_paths := [] }

/-- A concrete Build-mode context whose status is already Cancelled. -/
def buildCtxB : BuildCtx := { buildCtxA with render_status := .Cancelled }

/-- A concrete Build-mode context whose render config is empty. -/
def buildCtxC : BuildCtx := { buildCtxA with widget_render_cfg := fun _ => none }

/-- A concrete oracle environment for the browser-side widget state lookup,
classifying the path as a head entry. -/
def gwsEnvA : GwsEnv Bool Bool :=
  { make_rx := fun b => b
    held_state := .ok none
    contains := .Head
    preloaded_state := Json.null
    add_state := .ok () }

/-- Collapsing the reactive projection of an RxHashMap yields the original
map back: wrapping every value in a signal and reading every signal back is
the identity on the entry list. -/
theorem rx_hash_map_unrx_rx {K V : Type} (m : RxHashMap K V) :
    RxHashMapRx.make_unrx ⟨(RxHashMap.make_rx m).sig⟩ = m := by
  cases m with
  | mk entries =>
    simp only [RxHashMap.make_rx, RxHashMapRx.make_unrx, create_signal, Signal.get_clone,
      List.map_map]
    congr 1
    induction entries with
    | nil => rfl
    | cons kv rest ih => simp [Function.comp, ih]

/-- Claim C1: in Build mode, a widget invocation (under an Ok status, the
short-circuit of claim C7 covering the rest) whose path is in the widget
render config and whose capsule uses request state or revalidates sets the
shared render status to Cancelled and yields an empty view; the context
equation shows widget_states and possibly_incremental_paths unchanged, and
since the context (its immutable store included) is universally quantified
and preserved, no store read influences the result. -/
theorem buildmode_contradiction_cancels {P : Type} (c : Capsule P) (locale path : String)
    (props : P) (capsule_name : String) (ctx : BuildCtx)
    (h1 : ctx.render_status = .Ok)
    (h2 : ctx.widget_render_cfg path = some capsule_name)
    (h3 : (c.uses_request_state || c.revalidates) = true) :
    c.engine_widget locale path props (.Build ctx) =
      .ok (View.new, .Build { ctx with render_status := .Cancelled }) := by
  simp only [Capsule.engine_widget, h1, h2, h3, if_true]

/-- Witness for claim C1 at a concrete capsule that uses request state. -/
theorem buildmode_contradiction_cancels_witness :
    capsuleB.engine_widget "en-US" "widget/about" () (.Build buildCtxA) =
      .ok (View.new, .Build { buildCtxA with render_status := .Cancelled }) :=
  buildmode_contradiction_cancels capsuleB "en-US" "widget/about" () "capsule" buildCtxA
    rfl rfl rfl

/-- Claim C2: in Request mode, every widget invocation is decided by lookup
of the localized path in widget_states, with exactly the three cases of
requestInvocationSpec: an Ok entry renders directly with that state, an Err
entry renders a widget-level error view through the error view handler
without changing the context or failing the page, an absent entry appends
the path to the unresolved widget accumulator and yields an empty view. -/
theorem requestmode_three_cases {P : Type} (c : Capsule P) (locale path : String) (props : P)
    (ctx : RequestCtx) :
    c.engine_widget locale path props (.Request ctx) =
      .ok (requestInvocationSpec c locale path props ctx) := by
  cases h : ctx.widget_states (PathMaybeWithLocale.new path locale) with
  | none => simp only [Capsule.engine_widget, requestInvocationSpec, h]
  | some r =>
    cases r with
    | ok state =>
      cases hr : c.render_widget_for_template_server (PathMaybeWithLocale.new path locale)
          state props with
      | ok view => simp only [Capsule.engine_widget, requestInvocationSpec, h, hr]
      | error e => simp only [Capsule.engine_widget, requestInvocationSpec, h, hr]
    | error err_data => simp only [Capsule.engine_widget, requestInvocationSpec, h]

/-- Claim C3: in Build mode, under an Ok status, a render-config hit and a
capsule that neither uses request state nor revalidates, the invocation
behaves exactly as buildHitSpec: the immutable store is read at exactly the
key static/ locale - urlencoded path .json, NotFound is implicit empty state
(the state parsed from the serialization of null), any other store or
deserialization error is stored in the render status with an empty view, and
a successful read records the (localized path, capsule name, raw state)
triple in widget_states before rendering. -/
theorem buildmode_store_read_behavior {P : Type} (c : Capsule P) (locale path : String)
    (props : P) (capsule_name : String) (ctx : BuildCtx)
    (h1 : ctx.render_status = .Ok)
    (h2 : ctx.widget_render_cfg path = some capsule_name)
    (h3 : c.uses_request_state = false)
    (h4 : c.revalidates = false) :
    c.engine_widget locale path props (.Build ctx) =
      .ok (buildHitSpec c locale path props capsule_name ctx) := by
  cases hread : ctx.immutable_store ("static/" ++ (locale ++ "-" ++ urlencode path) ++ ".json") with
  | ok w =>
    cases w with
    | json j =>
      cases hr : c.render_widget_for_template_server (PathMaybeWithLocale.new path locale)
          ⟨j⟩ props with
      | ok view =>
        simp [Capsule.engine_widget, buildHitSpec, buildRecordAndRender,
          TemplateState.from_str, h1, h2, h3, h4, hread, hr]
      | error e =>
        simp [Capsule.engine_widget, buildHitSpec, buildRecordAndRender,
          TemplateState.from_str, h1, h2, h3, h4, hread, hr]
    | text s =>
      simp [Capsule.engine_widget, buildHitSpec, TemplateState.from_str, h1, h2, h3, h4, hread]
  | error e =>
    cases e with
    | NotFound n =>
      cases hr : c.render_widget_for_template_server (PathMaybeWithLocale.new path locale)
          ⟨Json.null⟩ props with
      | ok view =>
        simp [Capsule.engine_widget, buildHitSpec, buildRecordAndRender,
          TemplateState.from_str, h1, h2, h3, h4, hread, hr]
      | error e2 =>
        simp [Capsule.engine_widget, buildHitSpec, buildRecordAndRender,
          TemplateState.from_str, h1, h2, h3, h4, hread, hr]
    | ReadFailed n s =>
      simp [Capsule.engine_widget, buildHitSpec, h1, h2, h3, h4, hread]
    | WriteFailed n s =>
      simp [Capsule.engine_widget, buildHitSpec, h1, h2, h3, h4, hread]

/-- Witness for claim C3 at a concrete build-safe capsule and healthy
context. -/
theorem buildmode_store_read_behavior_witness :
    capsuleA.engine_widget "en-US" "widget/about" () (.Build buildCtxA) =
      .ok (buildHitSpec capsuleA "en-US" "widget/about" () "capsule" buildCtxA) :=
  buildmode_store_read_behavior capsuleA "en-US" "widget/about" () "capsule" buildCtxA
    rfl rfl rfl rfl

/-- Claim C4: on the browser side, when the widget state lookup finds no held
state and the state store classifies the path as Head or HeadNoState, the
result is exactly the InvalidWidgetPssEntry client invariant error, so in
particular never an empty or defaulted state. -/
theorem widget_head_entry_is_invariant_violation {S Rx : Type} [Serde S] (env : GwsEnv S Rx)
    (is_client : Bool) (url : String) (server_state : TemplateState)
    (hheld : env.held_state = .ok none)
    (hclient : is_client = true)
    (hcontains : env.contains = PssContains.Head ∨ env.contains = PssContains.HeadNoState) :
    Reactor.get_widget_state_no_fetch env is_client url server_state =
      .ok (.error (ClientError.InvariantError ClientInvariantError.InvalidWidgetPssEntry)) := by
  rcases hcontains with hc | hc <;>
    simp only [Reactor.get_widget_state_no_fetch, hheld, hclient, hc, if_true]

/-- Witness for claim C4 at a concrete head-classified oracle environment. -/
theorem widget_head_entry_is_invariant_violation_witness :
    Reactor.get_widget_state_no_fetch gwsEnvA true "en-US/widget/about" TemplateState.empty =
      .ok (.error (ClientError.InvariantError ClientInvariantError.InvalidWidgetPssEntry)) :=
  widget_head_entry_is_invariant_violation gwsEnvA true "en-US/widget/about" TemplateState.empty
    rfl rfl (Or.inl rfl)

/-- Claim C5: collapsing the reactive projection is the inverse of making a
value reactive: for every unreactive type the wrapper projection is the
identity, and for every RxHashMap the signal wrapping and unwrapping cancel
entrywise. -/
theorem make_rx_make_unrx_roundtrip :
    (∀ (T : Type) (v : T), (UnreactiveState.make_rx v).make_unrx = v) ∧
    (∀ (K V : Type) (m : RxHashMap K V), (RxHashMap.make_rx m).make_unrx = m) :=
  ⟨fun _ _ => rfl, fun _ _ m => rx_hash_map_unrx_rx m⟩

/-- Claim C6: freezing a reactive projection (collapsing to the unreactive
value and serializing it) and then parsing the string back and
deserializing it yields exactly the original value, both for wrapped
unreactive state and for reactive hash maps. -/
theorem freeze_thaw_roundtrip :
    (∀ (T : Type) [Serde T] (v : T),
      Except.bind (TemplateState.from_str ((UnreactiveState.make_rx v).freeze))
        (fun ts => TemplateState.into_concrete (α := T) ts) = .ok v) ∧
    (∀ (K V : Type) [SerdeKey K] [Serde V] (m : RxHashMap K V),
      Except.bind (TemplateState.from_str ((RxHashMap.make_rx m).freeze))
        (fun ts => TemplateState.into_concrete (α := RxHashMap K V) ts) = .ok m) := by
  constructor
  · intro T inst v
    simp only [UnreactiveStateWrapper.freeze, UnreactiveState.make_rx,
      TemplateState.from_str, Except.bind, TemplateState.into_concrete, Serde.round_trip]
  · intro K V instK instV m
    simp only [RxHashMapRx.freeze, TemplateState.from_str, Except.bind,
      TemplateState.into_concrete]
    rw [rx_hash_map_unrx_rx m]
    exact Serde.round_trip m

/-- Claim C7: in Build mode, a widget invocation made while the shared render
status is not Ok yields an empty view with the whole context unchanged: no
store read influences the result, no status change and no accumulator
modification happens. -/
theorem buildmode_short_circuit {P : Type} (c : Capsule P) (locale path : String) (props : P)
    (ctx : BuildCtx) (h : ctx.render_status ≠ RenderStatus.Ok) :
    c.engine_widget locale path props (.Build ctx) = .ok (View.new, .Build ctx) := by
  cases hs : ctx.render_status with
  | Ok => exact absurd hs h
  | Cancelled => simp only [Capsule.engine_widget, hs]
  | Err e => simp only [Capsule.engine_widget, hs]

/-- Witness for claim C7 at a concrete context with a Cancelled status. -/
theorem buildmode_short_circuit_witness :
    capsuleA.engine_widget "en-US" "widget/about" () (.Build buildCtxB) =
      .ok (View.new, .Build buildCtxB) :=
  buildmode_short_circuit capsuleA "en-US" "widget/about" () buildCtxB (by decide)

/-- Claim C8: in Build mode, under an Ok status, a widget invocation whose
path is absent from the render config appends the path to the
possibly_incremental_paths accumulator and yields an empty placeholder view,
the context equation showing the render status (and everything else)
unchanged. -/
theorem buildmode_incremental_paths {P : Type} (c : Capsule P) (locale path : String)
    (props : P) (ctx : BuildCtx)
    (h1 : ctx.render_status = .Ok)
    (h2 : ctx.widget_render_cfg path = none) :
    c.engine_widget locale path props (.Build ctx) =
      .ok (View.new, .Build
        { ctx with possibly_incremental_paths := ctx.possibly_incremental_paths ++ [path] }) := by
  simp only [Capsule.engine_widget, h1, h2]

/-- Witness for claim C8 at a concrete context with an empty render config. -/
theorem buildmode_incremental_paths_witness :
    capsuleA.engine_widget "en-US" "widget/about" () (.Build buildCtxC) =
      .ok (View.new, .Build
        { buildCtxC with
          possibly_incremental_paths := buildCtxC.possibly_incremental_paths
            ++ ["widget/about"] }) :=
  buildmode_incremental_paths capsuleA "en-US" "widget/about" () buildCtxC rfl rfl

/-- Claim C9: invoking a widget in Head, Error or Headers mode fails fast
with a panic for every capsule, path and props: these modes never produce a
widget view. -/
theorem forbidden_modes_fail_fast {P : Type} (c : Capsule P) (locale path : String) (props : P) :
    c.engine_widget locale path props .Head = .error ⟨"widgets cannot be used in heads"⟩ ∧
    c.engine_widget locale path props .Error = .error ⟨"widgets cannot be used in error views"⟩ ∧
    c.engine_widget locale path props .Headers = .error ⟨"widgets cannot be used in headers"⟩ :=
  ⟨rfl, rfl, rfl⟩

/-- Claim C10: the engine-side head and header closures return the NoState
invariant violation on an empty template state for every user function (so
the user function is never consulted), and on a non-empty state whose typed
deserialization fails they return the InvalidState invariant violation
carrying the source error, never a defaulted state. -/
theorem state_guard_error_paths {S V : Type} [Serde S] (template_name : String)
    (ts : TemplateState) :
    (ts.is_empty = true →
      ∀ (val : S → GeneratorResult V),
        TemplateInner.head_with_state val template_name ts =
          .error (ServerError.ClientError (.InvariantError .NoState)) ∧
        TemplateInner.set_headers_with_state val template_name ts =
          .error (ServerError.ClientError (.InvariantError .NoState))) ∧
    (∀ (val : S → GeneratorResult V) (e : String),
      ts.is_empty = false →
      TemplateState.into_concrete (α := S) ts = .error e →
      TemplateInner.head_with_state val template_name ts =
        .error (ServerError.ClientError (.InvariantError (.InvalidState e))) ∧
      TemplateInner.set_headers_with_state val template_name ts =
        .error (ServerError.ClientError (.InvariantError (.InvalidState e)))) := by
  constructor
  · intro hempty val
    constructor <;>
      simp only [TemplateInner.head_with_state, TemplateInner.set_headers_with_state,
        hempty, if_true]
  · intro val e hempty hconc
    constructor <;>
      simp only [TemplateInner.head_with_state, TemplateInner.set_headers_with_state,
        hempty, hconc, Bool.false_eq_true, if_false]
